import Mathlib

/-!
Verification of the `search_tool` package: a shallow embedding of the
session manager (`playwright_manager.py`), the provider engines
(`engines/base_engine.py`, `engines/google.py`, `engines/brave.py`,
`engines/duckduckgo.py`), the HTML extraction pipelines
(`parsers/google.py`, `parsers/brave.py`) and the orchestrator
(`search.py`), together with theorems settling the specified behaviours.

Machine-level conventions: Python nonnegative integer division `//` is
`Nat` division; Python string truthiness (`if s:`) is "not the empty
string"; fallible Python code is embedded as `Except PyExc`.
-/

namespace SearchTool

/-- Python exception values observable at the boundaries modelled here.
`searchEngineError` carries the optional `__cause__` installed by
`raise ... from e` (exceptions.py defines the repository's taxonomy;
`timeoutError` stands for Playwright's own TimeoutError, which is not a
`SearchToolError`; `unboundLocalError` is Python's error for reading a
never-assigned local variable). -/
inductive PyExc where
  | playwrightError (msg : String)
  | parsingError (msg : String)
  | searchEngineError (msg : String) (cause : Option PyExc)
  | configurationError (msg : String)
  | timeoutError (msg : String)
  | unboundLocalError (localName : String)
  | otherError (msg : String)
  deriving Repr

/-- `isinstance(e, SearchEngineError)`: only the `searchEngineError`
constructor (exceptions.py: `ConfigurationError`, `ParsingError` and
`PlaywrightError` are siblings of `SearchEngineError` under
`SearchToolError`, not subclasses of it). -/
def PyExc.is_search_engine_error : PyExc → Bool
  | .searchEngineError _ _ => true
  | _ => false

/-- `isinstance(e, ConfigurationError)`. -/
def PyExc.is_configuration_error : PyExc → Bool
  | .configurationError _ => true
  | _ => false

/-- `str(e)`: the message text of an exception value. -/
def PyExc.message : PyExc → String
  | .playwrightError m => m
  | .parsingError m => m
  | .searchEngineError m _ => m
  | .configurationError m => m
  | .timeoutError m => m
  | .unboundLocalError n => "cannot access local variable '" ++ n ++ "'"
  | .otherError m => m

/-- config.py: the `SearchEngine` StrEnum. -/
inductive SearchEngine where
  | google
  | duckduckgo
  | brave
  deriving Repr, DecidableEq

/-- The `.value` of a `SearchEngine` member. -/
def SearchEngine.value : SearchEngine → String
  | .google => "google"
  | .duckduckgo => "duckduckgo"
  | .brave => "brave"

/-- config.py: `MAX_RESULTS = 500`, the hard clamp applied in
`SearchConfig.__init__`. -/
def MAX_RESULTS : Nat := 500

/-- config.py: the fields of `SearchConfig` that the verified behaviours
read.  `num_results` is validated by pydantic with `ge=1` and clamped by
`__init__` to `MAX_RESULTS`; theorems carry `1 ≤ num_results` where the
behaviour depends on it.  The remaining fields (language, region,
safe_search, time_range, user_agent, proxy, headless) only influence
search-URL construction, which none of the verified properties read. -/
structure SearchConfig where
  search_engine : SearchEngine
  num_results : Nat
  deriving Repr, DecidableEq

/-- config.py `SearchConfig.__init__`: clamp `num_results` to
`MAX_RESULTS`. -/
def SearchConfig.clamp (c : SearchConfig) : SearchConfig :=
  { c with num_results := min c.num_results MAX_RESULTS }

/-- engines/google.py: `results_per_page = 10`. -/
def google_results_per_page : Nat := 10

/-- engines/brave.py: `results_per_page = 20`. -/
def brave_results_per_page : Nat := 20

/-- engines/google.py `GoogleEngine.__init__`:
`self.pages_needed = (self.config.num_results - 1) // self.results_per_page + 1`. -/
def google_pages_needed (c : SearchConfig) : Nat :=
  (c.num_results - 1) / google_results_per_page + 1

/-- engines/brave.py `BraveEngine.__init__`:
`self.pages_needed = (self.config.num_results - 1) // self.results_per_page + 1`. -/
def brave_pages_needed (c : SearchConfig) : Nat :=
  (c.num_results - 1) / brave_results_per_page + 1

/-- engines/duckduckgo.py `DuckDuckGoEngine.__init__`:
`self.pages_needed = 1` (constant; DuckDuckGo paginates by in-page
interaction, and the engine defines no `results_per_page`). -/
def duckduckgo_pages_needed (_ : SearchConfig) : Nat := 1

/-- Modelled from the spec: `pagesNeeded(config) = ceil(requestedCount /
resultsPerPage)` — the formula section 4.2 states for every adapter,
with `resultsPerPage` a provider constant.  Stated for comparison with
the per-engine definitions taken from the source. -/
def spec_pages_needed (requested resultsPerPage : Nat) : Nat :=
  (requested + resultsPerPage - 1) / resultsPerPage

theorem succ_pred_div_eq_ceil (r k : Nat) (hr : 1 ≤ r) (hk : 1 ≤ k) :
    (r - 1) / k + 1 = (r + k - 1) / k := by
  obtain ⟨r', rfl⟩ : ∃ r', r = r' + 1 := ⟨r - 1, (Nat.succ_pred_eq_of_pos hr).symm⟩
  have h1 : r' + 1 + k - 1 = r' + k := by omega
  rw [h1, Nat.add_div_right _ hk, Nat.add_sub_cancel]

/-- C2 counterexample: for DuckDuckGo with requested count `r = 2` the
engine acquires `pages_needed = 1` page, but the claimed formula
`ceil(r / resultsPerPage)` with the claimed DuckDuckGo constant
`resultsPerPage = 1` gives `2`. -/
theorem claim2_counterexample :
    duckduckgo_pages_needed ⟨SearchEngine.duckduckgo, 2⟩ = 1 ∧
    spec_pages_needed 2 1 = 2 ∧
    duckduckgo_pages_needed ⟨SearchEngine.duckduckgo, 2⟩ ≠ spec_pages_needed 2 1 := by
  refine ⟨rfl, rfl, ?_⟩
  decide

/-- C2 amended: for every configuration with requested count `r ≥ 1`,
Google acquires `ceil(r / 10)` pages and Brave `ceil(r / 20)` pages
(matching the spec's formula with their `results_per_page` constants),
while DuckDuckGo always acquires exactly 1 page regardless of `r`
(it paginates by in-page interaction, not by a `ceil` formula). -/
theorem claim2_amended_pages_needed (c : SearchConfig) (h : 1 ≤ c.num_results) :
    google_pages_needed c = spec_pages_needed c.num_results google_results_per_page ∧
    brave_pages_needed c = spec_pages_needed c.num_results brave_results_per_page ∧
    duckduckgo_pages_needed c = 1 := by
  refine ⟨?_, ?_, rfl⟩
  · exact succ_pred_div_eq_ceil c.num_results google_results_per_page h (by decide)
  · exact succ_pred_div_eq_ceil c.num_results brave_results_per_page h (by decide)

/-- C2 amended, witness: the spec's own examples `k=10, r=25 → 3` and
`k=20, r=20 → 1`, and DuckDuckGo at `r=25 → 1`. -/
theorem claim2_amended_pages_needed_witness :
    (1 ≤ (25 : Nat)) ∧
    google_pages_needed ⟨SearchEngine.google, 25⟩ =
      spec_pages_needed 25 google_results_per_page ∧
    brave_pages_needed ⟨SearchEngine.brave, 20⟩ =
      spec_pages_needed 20 brave_results_per_page ∧
    duckduckgo_pages_needed ⟨SearchEngine.duckduckgo, 25⟩ = 1 :=
  ⟨by decide,
   (claim2_amended_pages_needed ⟨SearchEngine.google, 25⟩ (by decide)).1,
   (claim2_amended_pages_needed ⟨SearchEngine.brave, 20⟩ (by decide)).2.1,
   (claim2_amended_pages_needed ⟨SearchEngine.duckduckgo, 25⟩ (by decide)).2.2⟩

/-! ## Extraction pipelines (parsers/google.py, parsers/brave.py) -/

/-- The Python library functions the parsers call, abstracted as data:
`http_url_ok u` is whether pydantic `HttpUrl(u)` validation succeeds
(i.e. `u` parses as a well-formed absolute http(s) URL), and
`urlparse_display u` is the display string GoogleHTMLParser derives from
`urllib.parse.urlparse(u)` in its cite-less fallback branch. -/
structure PyLib where
  http_url_ok : String → Bool
  urlparse_display : String → String

/-- Python string truthiness (`if s:`): true iff nonempty. -/
def py_truthy (s : String) : Bool := !s.data.isEmpty

/-- Helper for `py_strip`: drop leading whitespace characters. -/
def drop_leading_ws : List Char → List Char
  | [] => []
  | c :: cs => if c.isWhitespace then drop_leading_ws cs else c :: cs

/-- Python `str.strip()`: remove leading and trailing whitespace.  (Defined
by structural recursion on the character list so that concrete instances
evaluate in the kernel; core's `String.trim` does not.) -/
def py_strip (s : String) : String :=
  ⟨(drop_leading_ws (drop_leading_ws s.data).reverse).reverse⟩

/-- Python `s.startswith(pre)`. -/
def py_startswith (s pre : String) : Bool := pre.data.isPrefixOf s.data

/-- The pervasive parser idiom `x.strip() if x else None`, where `x` is a
nullable string (falsy when `None` or empty; note a whitespace-only `x` is
truthy and strips to the empty string, which stays in). -/
def strip_if_truthy : Option String → Option String
  | none => none
  | some t => if py_truthy t then some (py_strip t) else none

/-- One candidate Google result block (an element matched by
`#search [data-hveid]`, or by the fallback `div.g`) as the parser observes
it.  Each nested `Option` separates "sub-element absent" (outer `none`)
from "sub-element present but `text_content()`/`get_attribute()` returned
None" (inner `none`). -/
structure GoogleBlock where
  h3_text : Option (Option String)
  a_href : Option (Option String)
  cite_text : Option (Option String)
  snippet_texts : List (Option String)
  deriving Repr, DecidableEq

/-- GoogleHTMLParser.parse, title extraction:
`title = title_text_content.strip() if title_text_content else None`,
with `title` remaining None when no `h3` matched. -/
def google_title (b : GoogleBlock) : Option String :=
  match b.h3_text with
  | none => none
  | some t => strip_if_truthy t

/-- GoogleHTMLParser.parse, URL extraction: `url` is set to the `href`
attribute of the first `a[href]` only when that attribute is truthy and
`href_attribute.startswith("http")`. -/
def google_url (b : GoogleBlock) : Option String :=
  match b.a_href with
  | none => none
  | some none => none
  | some (some h) =>
      if py_truthy h && py_startswith h "http" then some h else none

/-- GoogleHTMLParser.parse, display-URL extraction (runs inside the branch
where `url` was set): text of a `cite` child when present (strip-if-truthy),
otherwise the `urlparse`-derived fallback string. -/
def google_display_url (lib : PyLib) (b : GoogleBlock) (url : String) : Option String :=
  match b.cite_text with
  | some txt => strip_if_truthy txt
  | none => some (lib.urlparse_display url)

/-- GoogleHTMLParser.parse, snippet extraction: collect the stripped text of
every snippet div whose raw text is truthy; join with spaces when any were
collected, else None. -/
def google_snippet (b : GoogleBlock) : Option String :=
  let parts := b.snippet_texts.filterMap strip_if_truthy
  if parts.isEmpty then none else some (String.intercalate " " parts)

/-- The per-block state of GoogleHTMLParser.parse when control reaches the
`if title and url:` check: the four extracted values, returned iff that
check passes (`title` truthy, i.e. not None and nonempty; `url` set). -/
def google_candidate (lib : PyLib) (b : GoogleBlock) :
    Option (String × String × Option String × Option String) :=
  match google_title b, google_url b with
  | some t, some u =>
      if py_truthy t then some (t, u, google_snippet b, google_display_url lib b u)
      else none
  | _, _ => none

/-- Whether GoogleHTMLParser.parse emits an item for the block: the
`if title and url:` check passes and the `WebResult(...)` construction does
not raise — given well-typed arguments that is exactly pydantic `HttpUrl`
validation of `url` (a failure is caught, logged and skipped). -/
def google_accepted (lib : PyLib) (b : GoogleBlock) : Bool :=
  match google_candidate lib b with
  | some (_, u, _, _) => lib.http_url_ok u
  | none => false

/-- models.py `WebResult`, restricted to the fields the verified parsers
populate.  `retrieved_at` (a wall-clock timestamp) is not modelled and the
fields the parsers never pass (description, raw_html_snippet, sitelinks,
source_language, published_date, is_pdf, is_doc) are omitted; `url` is the
string that passed `HttpUrl` validation. -/
structure WebResult where
  search_engine : String
  title : String
  url : String
  snippet : Option String
  display_url : Option String
  position : Nat
  deriving Repr, DecidableEq

/-- The accumulation loop of GoogleHTMLParser.parse: `budget` is
`num_results` minus the number of items already emitted (the loop breaks
as soon as the accumulated list reaches `config.num_results`), `pos` the
current `position_counter` (1-based, incremented only on emission).  A
block failing the `if title and url:` check is passed over silently; one
whose `WebResult` construction raises is logged and skipped; either way
the loop continues with the remaining blocks and an unchanged counter. -/
def google_parse_loop (lib : PyLib) (engine : String) :
    List GoogleBlock → Nat → Nat → List WebResult
  | [] => fun _ _ => []
  | b :: rest => fun budget pos =>
    match google_candidate lib b with
    | none => google_parse_loop lib engine rest budget pos
    | some (t, u, sn, du) =>
      if lib.http_url_ok u then
        let w : WebResult := ⟨engine, t, u, sn, du, pos⟩
        if budget ≤ 1 then [w]
        else w :: google_parse_loop lib engine rest (budget - 1) (pos + 1)
      else google_parse_loop lib engine rest budget pos

/-- A rendered Google results page as the parser observes it: `root_found`
is whether `wait_for_selector("#search")` succeeded within its timeout (on
timeout the parser only prints a warning and proceeds); `primary` the
blocks matched by `#search [data-hveid]`; `fallback` those matched by
`div.g`, consulted only when the primary selector yields nothing. -/
structure GooglePage where
  root_found : Bool
  primary : List GoogleBlock
  fallback : List GoogleBlock
  deriving Repr, DecidableEq

/-- parsers/google.py `GoogleHTMLParser.parse`.  (`root_found` does not
influence the result: the missing-container case only warns.) -/
def google_parse (lib : PyLib) (c : SearchConfig) (pg : GooglePage) : List WebResult :=
  let elements := if pg.primary.isEmpty then pg.fallback else pg.primary
  google_parse_loop lib c.search_engine.value elements c.num_results 1

/-- One candidate Brave result block (an element matched by
`#results .snippet[data-type='web']`), nested `Option`s as in
`GoogleBlock`. -/
structure BraveBlock where
  title_text : Option (Option String)
  a_href : Option (Option String)
  snippet_text : Option (Option String)
  deriving Repr, DecidableEq

/-- BraveHTMLParser.parse, title extraction from the `.title` child. -/
def brave_title (b : BraveBlock) : Option String :=
  match b.title_text with
  | none => none
  | some t => strip_if_truthy t

/-- BraveHTMLParser.parse, URL extraction:
`url = await link_element.get_attribute("href")`, unfiltered. -/
def brave_url (b : BraveBlock) : Option String :=
  match b.a_href with
  | none => none
  | some h => h

/-- BraveHTMLParser.parse, snippet extraction (strip-if-truthy of the
snippet container's text). -/
def brave_snippet (b : BraveBlock) : Option String :=
  match b.snippet_text with
  | none => none
  | some t => strip_if_truthy t

/-- The per-block `if title and url:` check of BraveHTMLParser.parse: both
must be non-None and nonempty. -/
def brave_candidate (b : BraveBlock) : Option (String × String × Option String) :=
  match brave_title b, brave_url b with
  | some t, some u =>
      if py_truthy t && py_truthy u then some (t, u, brave_snippet b) else none
  | _, _ => none

/-- Whether BraveHTMLParser.parse emits an item for the block (check passes
and `HttpUrl` validation succeeds; a validation failure is caught, logged
and skipped). -/
def brave_accepted (lib : PyLib) (b : BraveBlock) : Bool :=
  match brave_candidate b with
  | some (_, u, _) => lib.http_url_ok u
  | none => false

/-- The accumulation loop of BraveHTMLParser.parse (same break/skip
structure as `google_parse_loop`; Brave sets no `display_url`). -/
def brave_parse_loop (lib : PyLib) (engine : String) :
    List BraveBlock → Nat → Nat → List WebResult
  | [] => fun _ _ => []
  | b :: rest => fun budget pos =>
    match brave_candidate b with
    | none => brave_parse_loop lib engine rest budget pos
    | some (t, u, sn) =>
      if lib.http_url_ok u then
        let w : WebResult := ⟨engine, t, u, sn, none, pos⟩
        if budget ≤ 1 then [w]
        else w :: brave_parse_loop lib engine rest (budget - 1) (pos + 1)
      else brave_parse_loop lib engine rest budget pos

/-- A rendered Brave results page: `root_found` is whether
`wait_for_selector("#results")` succeeded (on timeout BraveHTMLParser.parse
returns the empty list); `elements` the blocks matched by
`#results .snippet[data-type='web']`. -/
structure BravePage where
  root_found : Bool
  elements : List BraveBlock
  deriving Repr, DecidableEq

/-- parsers/brave.py `BraveHTMLParser.parse`. -/
def brave_parse (lib : PyLib) (c : SearchConfig) (pg : BravePage) : List WebResult :=
  if pg.root_found then
    brave_parse_loop lib c.search_engine.value pg.elements c.num_results 1
  else []

theorem google_candidate_title_nonempty {lib : PyLib} {b : GoogleBlock}
    {t u : String} {sn du : Option String}
    (h : google_candidate lib b = some (t, u, sn, du)) : py_truthy t = true := by
  unfold google_candidate at h
  split at h
  · split at h
    · rename_i ht
      injection h with h'
      cases h'
      exact ht
    · exact absurd h (by simp)
  · exact absurd h (by simp)

theorem brave_candidate_title_nonempty {b : BraveBlock}
    {t u : String} {sn : Option String}
    (h : brave_candidate b = some (t, u, sn)) : py_truthy t = true := by
  unfold brave_candidate at h
  split at h
  · split at h
    · rename_i ht
      injection h with h'
      cases h'
      exact (Bool.and_eq_true _ _ |>.mp ht).1
    · exact absurd h (by simp)
  · exact absurd h (by simp)

theorem google_parse_loop_mem (lib : PyLib) (engine : String) :
    ∀ (bs : List GoogleBlock) (budget pos : Nat) (w : WebResult),
      w ∈ google_parse_loop lib engine bs budget pos →
      py_truthy w.title = true ∧ lib.http_url_ok w.url = true := by
  intro bs
  induction bs with
  | nil => intro budget pos w h; simp [google_parse_loop] at h
  | cons b rest ih =>
      intro budget pos w h
      simp only [google_parse_loop] at h
      cases hc : google_candidate lib b with
      | none => rw [hc] at h; exact ih budget pos w h
      | some cand =>
          obtain ⟨t, u, sn, du⟩ := cand
          rw [hc] at h
          by_cases hv : lib.http_url_ok u = true
          · simp only [hv, if_true] at h
            by_cases hb : budget ≤ 1
            · simp only [hb, if_true, List.mem_singleton] at h
              subst h
              exact ⟨google_candidate_title_nonempty hc, hv⟩
            · simp only [hb, if_false, List.mem_cons] at h
              rcases h with h | h
              · subst h
                exact ⟨google_candidate_title_nonempty hc, hv⟩
              · exact ih (budget - 1) (pos + 1) w h
          · simp only [Bool.not_eq_true] at hv
            simp only [hv, Bool.false_eq_true, if_false] at h
            exact ih budget pos w h

theorem brave_parse_loop_mem (lib : PyLib) (engine : String) :
    ∀ (bs : List BraveBlock) (budget pos : Nat) (w : WebResult),
      w ∈ brave_parse_loop lib engine bs budget pos →
      py_truthy w.title = true ∧ lib.http_url_ok w.url = true := by
  intro bs
  induction bs with
  | nil => intro budget pos w h; simp [brave_parse_loop] at h
  | cons b rest ih =>
      intro budget pos w h
      simp only [brave_parse_loop] at h
      cases hc : brave_candidate b with
      | none => rw [hc] at h; exact ih budget pos w h
      | some cand =>
          obtain ⟨t, u, sn⟩ := cand
          rw [hc] at h
          by_cases hv : lib.http_url_ok u = true
          · simp only [hv, if_true] at h
            by_cases hb : budget ≤ 1
            · simp only [hb, if_true, List.mem_singleton] at h
              subst h
              exact ⟨brave_candidate_title_nonempty hc, hv⟩
            · simp only [hb, if_false, List.mem_cons] at h
              rcases h with h | h
              · subst h
                exact ⟨brave_candidate_title_nonempty hc, hv⟩
              · exact ih (budget - 1) (pos + 1) w h
          · simp only [Bool.not_eq_true] at hv
            simp only [hv, Bool.false_eq_true, if_false] at h
            exact ih budget pos w h

/-- C6: in both the Google and the Brave extraction pipelines, (i) every
emitted item carries a nonempty title and a URL that passed `HttpUrl`
validation — a block missing either never reaches the output, and no item
is emitted with a null field standing in; and (ii) a rejected block is
simply passed over: the loop's output on `bad :: rest` equals its output
on `rest`, so every valid sibling on the same page is still emitted and
extraction is never aborted by one bad block. -/
theorem claim6_invalid_dropped :
    (∀ (lib : PyLib) (c : SearchConfig) (pg : GooglePage) (w : WebResult),
        w ∈ google_parse lib c pg →
        py_truthy w.title = true ∧ lib.http_url_ok w.url = true) ∧
    (∀ (lib : PyLib) (engine : String) (budget pos : Nat)
        (b : GoogleBlock) (rest : List GoogleBlock),
        google_accepted lib b = false →
        google_parse_loop lib engine (b :: rest) budget pos =
          google_parse_loop lib engine rest budget pos) ∧
    (∀ (lib : PyLib) (c : SearchConfig) (pg : BravePage) (w : WebResult),
        w ∈ brave_parse lib c pg →
        py_truthy w.title = true ∧ lib.http_url_ok w.url = true) ∧
    (∀ (lib : PyLib) (engine : String) (budget pos : Nat)
        (b : BraveBlock) (rest : List BraveBlock),
        brave_accepted lib b = false →
        brave_parse_loop lib engine (b :: rest) budget pos =
          brave_parse_loop lib engine rest budget pos) := by
  refine ⟨?_, ?_, ?_, ?_⟩
  · intro lib c pg w h
    exact google_parse_loop_mem lib c.search_engine.value _ c.num_results 1 w h
  · intro lib engine budget pos b rest hrej
    unfold google_accepted at hrej
    simp only [google_parse_loop]
    cases hc : google_candidate lib b with
    | none => rfl
    | some cand =>
        obtain ⟨t, u, sn, du⟩ := cand
        rw [hc] at hrej
        have hv : lib.http_url_ok u = false := hrej
        simp only [hv, Bool.false_eq_true, if_false]
  · intro lib c pg w h
    unfold brave_parse at h
    by_cases hr : pg.root_found
    · rw [if_pos hr] at h
      exact brave_parse_loop_mem lib c.search_engine.value _ c.num_results 1 w h
    · rw [if_neg hr] at h
      simp at h
  · intro lib engine budget pos b rest hrej
    unfold brave_accepted at hrej
    simp only [brave_parse_loop]
    cases hc : brave_candidate b with
    | none => rfl
    | some cand =>
        obtain ⟨t, u, sn⟩ := cand
        rw [hc] at hrej
        have hv : lib.http_url_ok u = false := hrej
        simp only [hv, Bool.false_eq_true, if_false]

/-- C6 witness: a Google page whose first block lacks a title and a Brave
page whose first block has a non-validating URL; in both cases the bad
block is skipped and the valid sibling is emitted with its required
fields. -/
theorem claim6_invalid_dropped_witness :
    (py_truthy (⟨"google", "Good", "http://good.example", none,
        none, 1⟩ : WebResult).title = true ∧
      (PyLib.mk (fun u => py_startswith u "http://") (fun u => u)).http_url_ok
        "http://good.example" = true) ∧
    google_parse_loop (PyLib.mk (fun u => py_startswith u "http://") (fun u => u))
        "google"
        [⟨none, some (some "http://good.example"), none, []⟩,
         ⟨some (some "Good"), some (some "http://good.example"), none, []⟩] 10 1 =
      google_parse_loop (PyLib.mk (fun u => py_startswith u "http://") (fun u => u))
        "google"
        [⟨some (some "Good"), some (some "http://good.example"), none, []⟩] 10 1 ∧
    brave_parse_loop (PyLib.mk (fun u => py_startswith u "http://") (fun u => u))
        "brave"
        [⟨some (some "Bad"), some (some "ftp://x"), none⟩,
         ⟨some (some "Good"), some (some "http://good.example"), none⟩] 10 1 =
      brave_parse_loop (PyLib.mk (fun u => py_startswith u "http://") (fun u => u))
        "brave"
        [⟨some (some "Good"), some (some "http://good.example"), none⟩] 10 1 :=
  ⟨claim6_invalid_dropped.1
      (PyLib.mk (fun u => py_startswith u "http://") (fun u => u))
      ⟨SearchEngine.google, 10⟩
      ⟨true, [⟨some (some "Good"), some (some "http://good.example"),
               some none, []⟩], []⟩
      ⟨"google", "Good", "http://good.example", none, none, 1⟩
      (by decide),
   claim6_invalid_dropped.2.1
      (PyLib.mk (fun u => py_startswith u "http://") (fun u => u)) "google" 10 1
      ⟨none, some (some "http://good.example"), none, []⟩
      [⟨some (some "Good"), some (some "http://good.example"), none, []⟩]
      (by decide),
   claim6_invalid_dropped.2.2.2
      (PyLib.mk (fun u => py_startswith u "http://") (fun u => u)) "brave" 10 1
      ⟨some (some "Bad"), some (some "ftp://x"), none⟩
      [⟨some (some "Good"), some (some "http://good.example"), none⟩]
      (by decide)⟩

/-! ## BaseSearchEngine.search (engines/base_engine.py) -/

/-- models.py `SearchResults`, restricted to the fields
`BaseSearchEngine.search` populates (the image/video/news/related lists and
the optional metadata fields are left at their defaults by the engine and
are omitted here). -/
structure SearchResults where
  query : String
  search_engine : String
  web_results : List WebResult
  deriving Repr, DecidableEq

/-- What one run of `BaseSearchEngine.search` observes of its environment:
the outcome of `playwright_manager.get_pages(self.pages_needed)` (page
handles as numeric ids), the outcome of each per-index coroutine
`self._get_page_results(pages[i], i, query)` awaited inside
`asyncio.gather`, and the `.url` of the last page handle (read only by the
catch-all except clause). -/
structure BaseSearchEnv where
  get_pages : Except PyExc (List Nat)
  fetch : Nat → Except PyExc (List WebResult)
  page_url : String

/-- The completion-order-dependent part of `asyncio.gather(*tasks)` with the
default `return_exceptions=False`: `schedule` is the order in which the
scheduler completes the tasks; the exception gather propagates (if any) is
that of the first task to fail in completion order. -/
def gather_first_error {α} (tasks : List (Except PyExc α)) (schedule : List Nat) :
    Option PyExc :=
  schedule.findSome? (fun i =>
    match tasks[i]? with
    | some (Except.error e) => some e
    | _ => none)

/-- Collect the results of a list of completed tasks in ARGUMENT order
(the order `asyncio.gather` returns results in, independent of completion
order). -/
def collect_ok {α} : List (Except PyExc α) → Except PyExc (List α)
  | [] => Except.ok []
  | t :: ts =>
    match t with
    | Except.error e => Except.error e
    | Except.ok v =>
      match collect_ok ts with
      | Except.error e => Except.error e
      | Except.ok vs => Except.ok (v :: vs)

/-- `await asyncio.gather(*tasks)`: raises the first exception in completion
order if any task fails, otherwise returns the results in argument order. -/
def asyncio_gather {α} (tasks : List (Except PyExc α)) (schedule : List Nat) :
    Except PyExc (List α) :=
  match gather_first_error tasks schedule with
  | some e => Except.error e
  | none => collect_ok tasks

/-- The `except` clauses of `BaseSearchEngine.search`: `PlaywrightError` and
`ParsingError` are re-raised as `SearchEngineError` with specific messages
(no `from` chaining in the source); any other exception is wrapped by the
catch-all clause, which first evaluates `page.url if page else ...` — when
the for loop never ran (`page_binding = none`) the local `page` is unbound
and that very evaluation raises UnboundLocalError("page") instead. -/
def base_search_except (engine query : String) (page_binding : Option String) :
    PyExc → PyExc
  | .playwrightError m =>
      .searchEngineError ("Playwright operation failed during search: " ++ m) none
  | .parsingError m =>
      .searchEngineError ("Failed to parse search results: " ++ m) none
  | e =>
      match page_binding with
      | none => .unboundLocalError "page"
      | some url =>
          .searchEngineError
            ("An unexpected error occurred during search with " ++ engine ++
             " for query '" ++ query ++ "' at URL " ++ url ++ ": " ++ e.message) none

/-- The `finally` block of `BaseSearchEngine.search`: it evaluates
`if pages:`.  When the local `pages` was never assigned (because
`get_pages` raised before the assignment completed) this evaluation raises
UnboundLocalError("pages"), which replaces whatever outcome — return value
or exception — was in flight.  When `pages` is bound, every handle is
released through `PlaywrightManager.close_page`, which never raises (see
`close_page` below), so the in-flight outcome propagates unchanged. -/
def base_search_finally (pages_local : Option (List Nat))
    (outcome : Except PyExc SearchResults) : Except PyExc SearchResults :=
  match pages_local with
  | none => Except.error (PyExc.unboundLocalError "pages")
  | some _ => outcome

/-- engines/base_engine.py `BaseSearchEngine.search`: acquire pages, run all
per-page fetch coroutines under one `asyncio.gather`, flatten the per-page
lists in argument (= page-index) order, and wrap them in a `SearchResults`;
exceptions pass through the except clauses and then the finally block. -/
def base_search_run (env : BaseSearchEnv) (c : SearchConfig) (query : String)
    (schedule : List Nat) : Except PyExc SearchResults :=
  match env.get_pages with
  | Except.error e =>
      base_search_finally none
        (Except.error (base_search_except c.search_engine.value query none e))
  | Except.ok pages =>
      let body : Except PyExc SearchResults :=
        match asyncio_gather ((List.range pages.length).map env.fetch) schedule with
        | Except.ok per_page =>
            Except.ok
              { query := query, search_engine := c.search_engine.value,
                web_results := per_page.flatten }
        | Except.error e =>
            Except.error
              (base_search_except c.search_engine.value query
                (if pages.isEmpty then none else some env.page_url) e)
      base_search_finally (some pages) body

/-- `GoogleEngine.search` (inherited from `BaseSearchEngine`) on the path
where page acquisition and every navigation succeed: `get_pages` returns
the `pages_needed` fresh handles, and fetch task `i` returns
`GoogleHTMLParser.parse` of the rendered page `pgs i`
(`_get_page_results` navigates and then delegates to the parser).
`page_url` is irrelevant on this path (no exception reaches the catch-all
clause). -/
def google_search_run (lib : PyLib) (c : SearchConfig) (pgs : Nat → GooglePage)
    (query : String) (schedule : List Nat) : Except PyExc SearchResults :=
  base_search_run
    { get_pages := Except.ok (List.range (google_pages_needed c)),
      fetch := fun i => Except.ok (google_parse lib c (pgs i)),
      page_url := "" }
    c query schedule

theorem gather_first_error_none {α} (tasks : List (Except PyExc α))
    (h : ∀ t ∈ tasks, ∃ v, t = Except.ok v) (schedule : List Nat) :
    gather_first_error tasks schedule = none := by
  unfold gather_first_error
  rw [List.findSome?_eq_none]
  intro i _
  cases hx : tasks[i]? with
  | none => rfl
  | some t =>
      obtain ⟨v, rfl⟩ := h t (List.getElem?_mem hx)
      rfl

theorem collect_ok_map_ok {α} (g : Nat → α) (l : List Nat) :
    collect_ok (l.map (fun i => Except.ok (g i))) = Except.ok (l.map g) := by
  induction l with
  | nil => rfl
  | cons x xs ih => simp [collect_ok, ih]

theorem asyncio_gather_map_ok {α} (g : Nat → α) (l : List Nat)
    (schedule : List Nat) :
    asyncio_gather (l.map (fun i => Except.ok (g i))) schedule =
      Except.ok (l.map g) := by
  unfold asyncio_gather
  rw [gather_first_error_none _ (by intro t ht; obtain ⟨i, _, rfl⟩ := List.mem_map.mp ht; exact ⟨g i, rfl⟩),
    collect_ok_map_ok]

/-- On the all-navigations-succeed path, the Google engine run returns, for
every completion schedule, the per-page parses flattened in page-index
order. -/
theorem google_search_run_eq (lib : PyLib) (c : SearchConfig)
    (pgs : Nat → GooglePage) (query : String) (schedule : List Nat) :
    google_search_run lib c pgs query schedule =
      Except.ok
        { query := query, search_engine := c.search_engine.value,
          web_results := (List.range (google_pages_needed c)).flatMap
            (fun i => google_parse lib c (pgs i)) } := by
  unfold google_search_run base_search_run
  simp only [List.length_range]
  rw [asyncio_gather_map_ok]
  rfl

/-- C10: when `get_pages` raises, the local `pages` is never assigned; the
except clause builds a `SearchEngineError`, but the `finally` block then
evaluates the unbound local `pages`, and the `UnboundLocalError` it raises
replaces the in-flight exception — so the caller of
`BaseSearchEngine.search` observes `UnboundLocalError`, not the documented
`SearchEngineError`. -/
theorem claim10_unbound_local (env : BaseSearchEnv) (c : SearchConfig)
    (query : String) (schedule : List Nat) (e : PyExc)
    (h : env.get_pages = Except.error e) :
    base_search_run env c query schedule =
      Except.error (PyExc.unboundLocalError "pages") ∧
    (PyExc.unboundLocalError "pages").is_search_engine_error = false := by
  refine ⟨?_, rfl⟩
  unfold base_search_run
  rw [h]
  rfl

/-- C10 witness: a run whose page acquisition fails with the
`PlaywrightError` that `get_pages` actually raises. -/
theorem claim10_unbound_local_witness :
    base_search_run
        ⟨Except.error (PyExc.playwrightError "Failed to create new page: boom"),
         fun _ => Except.ok [], "https://www.google.com/search?q=x"⟩
        ⟨SearchEngine.google, 10⟩ "x" [] =
      Except.error (PyExc.unboundLocalError "pages") ∧
    (PyExc.unboundLocalError "pages").is_search_engine_error = false :=
  claim10_unbound_local
    ⟨Except.error (PyExc.playwrightError "Failed to create new page: boom"),
     fun _ => Except.ok [], "https://www.google.com/search?q=x"⟩
    ⟨SearchEngine.google, 10⟩ "x" []
    (PyExc.playwrightError "Failed to create new page: boom") rfl

theorem google_parse_loop_length (lib : PyLib) (engine : String) :
    ∀ (bs : List GoogleBlock) (budget pos : Nat), 1 ≤ budget →
      (google_parse_loop lib engine bs budget pos).length ≤ budget := by
  intro bs
  induction bs with
  | nil => intro budget pos h; simp [google_parse_loop]
  | cons b rest ih =>
      intro budget pos h
      simp only [google_parse_loop]
      cases hc : google_candidate lib b with
      | none => exact ih budget pos h
      | some cand =>
          obtain ⟨t, u, sn, du⟩ := cand
          by_cases hv : lib.http_url_ok u = true
          · simp only [hv, if_true]
            by_cases hb : budget ≤ 1
            · simp only [hb, if_true, List.length_singleton]
              exact h
            · simp only [hb, if_false, List.length_cons]
              have := ih (budget - 1) (pos + 1) (by omega)
              omega
          · simp only [Bool.not_eq_true] at hv
            simp only [hv, Bool.false_eq_true, if_false]
            exact ih budget pos h

theorem length_flatten_le {α} (cap : Nat) :
    ∀ (L : List (List α)), (∀ l ∈ L, l.length ≤ cap) →
      L.flatten.length ≤ L.length * cap := by
  intro L
  induction L with
  | nil => intro _; simp
  | cons x xs ih =>
      intro h
      rw [List.flatten_cons, List.length_append, List.length_cons]
      have h1 := h x (List.mem_cons_self x xs)
      have h2 := ih (fun l hl => h l (List.mem_cons_of_mem _ hl))
      have h3 : (xs.length + 1) * cap = xs.length * cap + cap := Nat.succ_mul _ _
      omega

/-- C1 counterexample: Google with `num_results = 25` needs 3 pages; when
each page's markup carries 25 valid result blocks, each page's parse is
capped at 25 by the parser, yet `BaseSearchEngine.search` flattens all
three per-page lists into `SearchResults.web_results` without any cap: the
envelope carries 75 items, exceeding the configured 25. -/
theorem claim1_counterexample :
    Except.map (fun r : SearchResults => r.web_results.length)
        (google_search_run ⟨fun _ => true, fun u => u⟩ ⟨SearchEngine.google, 25⟩
          (fun _ => ⟨true,
            List.replicate 25
              ⟨some (some "T"), some (some "http://e"), some (some "c"), []⟩,
            []⟩)
          "q" (List.range 3)) = Except.ok 75 ∧
    ¬ (75 ≤ (25 : Nat)) := by
  exact ⟨rfl, by decide⟩

/-- C1 amended: the cap is enforced per page, not on the flattened list —
each page's parse emits at most `num_results` items, so the envelope's
item count is bounded by `pages_needed * num_results` (and can exceed
`num_results` itself whenever `pages_needed > 1`, as the counterexample
shows). -/
theorem claim1_amended_page_cap (lib : PyLib) (c : SearchConfig)
    (pgs : Nat → GooglePage) (query : String) (schedule : List Nat)
    (h : 1 ≤ c.num_results) :
    (∀ i, (google_parse lib c (pgs i)).length ≤ c.num_results) ∧
    (∀ r, google_search_run lib c pgs query schedule = Except.ok r →
      r.web_results.length ≤ google_pages_needed c * c.num_results) := by
  have hpage : ∀ i, (google_parse lib c (pgs i)).length ≤ c.num_results := by
    intro i
    unfold google_parse
    exact google_parse_loop_length lib c.search_engine.value _ c.num_results 1 h
  refine ⟨hpage, ?_⟩
  intro r hr
  rw [google_search_run_eq] at hr
  injection hr with hr
  subst hr
  have hb := length_flatten_le c.num_results
    ((List.range (google_pages_needed c)).map (fun i => google_parse lib c (pgs i)))
    (by
      intro l hl
      obtain ⟨i, _, rfl⟩ := List.mem_map.mp hl
      exact hpage i)
  simpa [List.length_map, List.length_range] using hb

/-- C1 amended, witness: with `num_results = 1` the single page's parse is
capped at 1 and the (empty) envelope satisfies the
`pages_needed * num_results` bound. -/
theorem claim1_amended_page_cap_witness :
    (1 ≤ (1 : Nat)) ∧
    (google_parse ⟨fun _ => true, fun u => u⟩ ⟨SearchEngine.google, 1⟩
      ⟨true, [], []⟩).length ≤ 1 ∧
    ({ query := "q", search_engine := "google",
       web_results := [] } : SearchResults).web_results.length ≤
      google_pages_needed ⟨SearchEngine.google, 1⟩ * 1 :=
  ⟨by decide,
   (claim1_amended_page_cap ⟨fun _ => true, fun u => u⟩ ⟨SearchEngine.google, 1⟩
      (fun _ => ⟨true, [], []⟩) "q" [] (by decide)).1 0,
   (claim1_amended_page_cap ⟨fun _ => true, fun u => u⟩ ⟨SearchEngine.google, 1⟩
      (fun _ => ⟨true, [], []⟩) "q" [] (by decide)).2
     { query := "q", search_engine := "google", web_results := [] } rfl⟩

/-- Strict lexicographic order on (page index, in-page position) keys. -/
def page_lex (a b : Nat × Nat) : Prop :=
  a.1 < b.1 ∨ (a.1 = b.1 ∧ a.2 < b.2)

/-- The (page index, in-page position) keys of a multi-page result set,
flattened in page-index order — the order in which
`BaseSearchEngine.search` emits the items. -/
def page_position_keys (n : Nat) (per_page : Nat → List WebResult) :
    List (Nat × Nat) :=
  (List.range n).flatMap (fun i => (per_page i).map (fun w => (i, w.position)))

theorem google_parse_loop_positions (lib : PyLib) (engine : String) :
    ∀ (bs : List GoogleBlock) (budget pos : Nat),
      (∀ w ∈ google_parse_loop lib engine bs budget pos, pos ≤ w.position) ∧
      ((google_parse_loop lib engine bs budget pos).map
        (fun w => w.position)).Pairwise (· < ·) := by
  intro bs
  induction bs with
  | nil =>
      intro budget pos
      constructor
      · intro w h; simp [google_parse_loop] at h
      · simp [google_parse_loop]
  | cons b rest ih =>
      intro budget pos
      simp only [google_parse_loop]
      cases hc : google_candidate lib b with
      | none => exact ih budget pos
      | some cand =>
          obtain ⟨t, u, sn, du⟩ := cand
          by_cases hv : lib.http_url_ok u = true
          · simp only [hv, if_true]
            by_cases hb : budget ≤ 1
            · simp only [hb, if_true]
              constructor
              · intro w h
                rw [List.mem_singleton] at h
                subst h
                exact Nat.le_refl pos
              · simp
            · simp only [hb, if_false]
              constructor
              · intro w h
                rcases List.mem_cons.mp h with h | h
                · subst h; exact Nat.le_refl pos
                · exact Nat.le_of_succ_le ((ih (budget - 1) (pos + 1)).1 w h)
              · rw [List.map_cons]
                refine List.Pairwise.cons ?_ (ih (budget - 1) (pos + 1)).2
                intro y hy
                obtain ⟨w, hw, rfl⟩ := List.mem_map.mp hy
                exact Nat.lt_of_succ_le ((ih (budget - 1) (pos + 1)).1 w hw)
          · simp only [Bool.not_eq_true] at hv
            simp only [hv, Bool.false_eq_true, if_false]
            exact ih budget pos

theorem page_keys_pairwise_aux (per_page : Nat → List WebResult) :
    ∀ (l : List Nat), l.Pairwise (· < ·) →
      (∀ i, ((per_page i).map (fun w => w.position)).Pairwise (· < ·)) →
      (l.flatMap (fun i => (per_page i).map (fun w => (i, w.position)))).Pairwise
        page_lex := by
  intro l
  induction l with
  | nil => intro _ _; simp
  | cons i is ih =>
      intro hl hall
      rw [List.flatMap_cons, List.pairwise_append]
      refine ⟨?_, ih (List.Pairwise.of_cons hl) hall, ?_⟩
      · rw [List.pairwise_map]
        have hp := hall i
        rw [List.pairwise_map] at hp
        exact hp.imp (fun h => Or.inr ⟨rfl, h⟩)
      · intro a ha b hb
        obtain ⟨w, _, rfl⟩ := List.mem_map.mp ha
        obtain ⟨j, hj, hb'⟩ := List.mem_flatMap.mp hb
        obtain ⟨w', _, rfl⟩ := List.mem_map.mp hb'
        exact Or.inl ((List.pairwise_cons.mp hl).1 j hj)

/-- C4: on the all-navigations-succeed path of a multi-page Google query,
(i) the run's result is the same for any two completion schedules —
completion timing never influences the output; (ii) the envelope is the
per-page parses flattened in page-index order; and (iii) the
(page index, in-page position) keys of that flattened output are strictly
increasing in lexicographic order (positions within each page are assigned
1, 2, ... by the parser). -/
theorem claim4_order_independent (lib : PyLib) (c : SearchConfig)
    (pgs : Nat → GooglePage) (query : String) (schedule schedule' : List Nat)
    (hs : schedule.Perm (List.range (google_pages_needed c)))
    (hs' : schedule'.Perm (List.range (google_pages_needed c))) :
    google_search_run lib c pgs query schedule =
      google_search_run lib c pgs query schedule' ∧
    google_search_run lib c pgs query schedule =
      Except.ok
        { query := query, search_engine := c.search_engine.value,
          web_results := (List.range (google_pages_needed c)).flatMap
            (fun i => google_parse lib c (pgs i)) } ∧
    (page_position_keys (google_pages_needed c)
        (fun i => google_parse lib c (pgs i))).Pairwise page_lex := by
  refine ⟨?_, google_search_run_eq lib c pgs query schedule, ?_⟩
  · rw [google_search_run_eq, google_search_run_eq]
  · unfold page_position_keys
    apply page_keys_pairwise_aux
    · exact List.pairwise_lt_range _
    · intro i
      unfold google_parse
      exact (google_parse_loop_positions lib c.search_engine.value _
        c.num_results 1).2

/-- C4 witness: `num_results = 11` needs two pages; the reversed completion
schedule `[1, 0]` produces the same envelope as the in-order schedule
`[0, 1]`. -/
theorem claim4_order_independent_witness :
    ([1, 0].Perm (List.range (google_pages_needed ⟨SearchEngine.google, 11⟩)) ∧
     [0, 1].Perm (List.range (google_pages_needed ⟨SearchEngine.google, 11⟩))) ∧
    (google_search_run ⟨fun _ => true, fun u => u⟩ ⟨SearchEngine.google, 11⟩
        (fun _ => ⟨true, [⟨some (some "T"), some (some "http://e"), some none, []⟩], []⟩)
        "q" [1, 0] =
      google_search_run ⟨fun _ => true, fun u => u⟩ ⟨SearchEngine.google, 11⟩
        (fun _ => ⟨true, [⟨some (some "T"), some (some "http://e"), some none, []⟩], []⟩)
        "q" [0, 1] ∧
     google_search_run ⟨fun _ => true, fun u => u⟩ ⟨SearchEngine.google, 11⟩
        (fun _ => ⟨true, [⟨some (some "T"), some (some "http://e"), some none, []⟩], []⟩)
        "q" [1, 0] =
      Except.ok
        { query := "q",
          search_engine :=
            (SearchConfig.mk SearchEngine.google 11).search_engine.value,
          web_results :=
            (List.range (google_pages_needed ⟨SearchEngine.google, 11⟩)).flatMap
              (fun i => google_parse ⟨fun _ => true, fun u => u⟩
                ⟨SearchEngine.google, 11⟩
                ((fun _ => ⟨true, [⟨some (some "T"), some (some "http://e"),
                    some none, []⟩], []⟩ : Nat → GooglePage) i)) } ∧
     (page_position_keys (google_pages_needed ⟨SearchEngine.google, 11⟩)
        (fun i => google_parse ⟨fun _ => true, fun u => u⟩
          ⟨SearchEngine.google, 11⟩
          ((fun _ => ⟨true, [⟨some (some "T"), some (some "http://e"),
              some none, []⟩], []⟩ : Nat → GooglePage) i))).Pairwise page_lex) :=
  ⟨⟨by decide, by decide⟩,
   claim4_order_independent ⟨fun _ => true, fun u => u⟩ ⟨SearchEngine.google, 11⟩
     (fun _ => ⟨true, [⟨some (some "T"), some (some "http://e"), some none, []⟩], []⟩)
     "q" [1, 0] [0, 1] (by decide) (by decide)⟩

/-! ## DuckDuckGoEngine._get_page_results (engines/duckduckgo.py) -/

/-- The "load more" interaction loop of `DuckDuckGoEngine._get_page_results`:
round `start` first awaits
`page.wait_for_selector("button#more-results", state="visible", timeout=10000)`.
`visible start` says whether the control became visible within that
timeout; when it did, the engine clicks it, scrolls to the bottom and
awaits network idle, then continues with the next round; when it did not,
`wait_for_selector` raises Playwright's TimeoutError, which propagates.
The first argument after `visible` is the number of rounds remaining;
on success the index after the last completed round is returned. -/
def ddg_load_more (visible : Nat → Bool) : Nat → Nat → Except PyExc Nat
  | 0 => fun start => Except.ok start
  | n + 1 => fun start =>
      if visible start then ddg_load_more visible n (start + 1)
      else Except.error (PyExc.timeoutError
        "Timeout 10000ms exceeded waiting for selector button#more-results")

/-- engines/duckduckgo.py `DuckDuckGoEngine._get_page_results` after a
successful navigation: run `num_loads = (self.config.num_results - 1) // 10`
rounds of the interaction loop, then delegate to the parser — `parsed` is
what `self._parse_results(page)` returns on the rendered page. -/
def ddg_get_page_results (visible : Nat → Bool) (c : SearchConfig)
    (parsed : List WebResult) : Except PyExc (List WebResult) :=
  match ddg_load_more visible ((c.num_results - 1) / 10) 0 with
  | Except.ok _ => Except.ok parsed
  | Except.error e => Except.error e

theorem ddg_load_more_all_visible (visible : Nat → Bool)
    (h : ∀ k, visible k = true) :
    ∀ (n s : Nat), ddg_load_more visible n s = Except.ok (s + n) := by
  intro n
  induction n with
  | zero => intro s; rfl
  | succ m ih =>
      intro s
      simp only [ddg_load_more, h s, if_true]
      rw [ih (s + 1)]
      congr 1
      omega

/-- C5 counterexample: DuckDuckGo with `num_results = 11` runs one
interaction round; when the "more results" control never becomes visible,
`wait_for_selector` raises a TimeoutError that propagates out of
`_get_page_results` — the fetch fails and extraction never runs, contrary
to the claimed stop-early-and-extract behaviour. -/
theorem claim5_counterexample :
    ddg_get_page_results (fun _ => false) ⟨SearchEngine.duckduckgo, 11⟩
        [⟨"duckduckgo", "T", "http://e", none, none, 1⟩] =
      Except.error (PyExc.timeoutError
        "Timeout 10000ms exceeded waiting for selector button#more-results") ∧
    ddg_get_page_results (fun _ => false) ⟨SearchEngine.duckduckgo, 11⟩
        [⟨"duckduckgo", "T", "http://e", none, none, 1⟩] ≠
      Except.ok [⟨"duckduckgo", "T", "http://e", none, none, 1⟩] := by
  refine ⟨rfl, ?_⟩
  intro h
  exact Except.noConfusion h

/-- C5 amended: the interaction loop is indeed bounded — it runs exactly
`(num_results - 1) // 10` rounds when the control keeps appearing and then
extraction proceeds; but when the control never appears, the wait for it
raises a TimeoutError that aborts the fetch (there is no stop-early path:
extraction does not run). -/
theorem claim5_amended_bounded_loop (visible : Nat → Bool) (c : SearchConfig)
    (parsed : List WebResult) :
    ((∀ k, visible k = true) →
      ddg_load_more visible ((c.num_results - 1) / 10) 0 =
        Except.ok ((c.num_results - 1) / 10) ∧
      ddg_get_page_results visible c parsed = Except.ok parsed) ∧
    ((∀ k, visible k = false) → 1 ≤ (c.num_results - 1) / 10 →
      ddg_get_page_results visible c parsed =
        Except.error (PyExc.timeoutError
          "Timeout 10000ms exceeded waiting for selector button#more-results")) := by
  constructor
  · intro hv
    have hload := ddg_load_more_all_visible visible hv ((c.num_results - 1) / 10) 0
    rw [Nat.zero_add] at hload
    refine ⟨hload, ?_⟩
    unfold ddg_get_page_results
    rw [hload]
  · intro hv hn
    unfold ddg_get_page_results
    obtain ⟨m, hm⟩ : ∃ m, (c.num_results - 1) / 10 = m + 1 :=
      ⟨(c.num_results - 1) / 10 - 1, by omega⟩
    rw [hm]
    simp only [ddg_load_more, hv 0, Bool.false_eq_true, if_false]

/-- C5 amended, witness: `num_results = 25` with an always-visible control
runs both rounds and extracts; `num_results = 11` with a never-visible
control fails with the timeout error. -/
theorem claim5_amended_bounded_loop_witness :
    (ddg_load_more (fun _ => true)
        (((SearchConfig.mk SearchEngine.duckduckgo 25).num_results - 1) / 10) 0 =
      Except.ok (((SearchConfig.mk SearchEngine.duckduckgo 25).num_results - 1) / 10) ∧
     ddg_get_page_results (fun _ => true) ⟨SearchEngine.duckduckgo, 25⟩ [] =
      Except.ok []) ∧
    (1 ≤ (((SearchConfig.mk SearchEngine.duckduckgo 11).num_results - 1) / 10) ∧
     ddg_get_page_results (fun _ => false) ⟨SearchEngine.duckduckgo, 11⟩ [] =
      Except.error (PyExc.timeoutError
        "Timeout 10000ms exceeded waiting for selector button#more-results")) :=
  ⟨(claim5_amended_bounded_loop (fun _ => true) ⟨SearchEngine.duckduckgo, 25⟩ []).1
      (fun _ => rfl),
   ⟨by decide,
    (claim5_amended_bounded_loop (fun _ => false) ⟨SearchEngine.duckduckgo, 11⟩ []).2
      (fun _ => rfl) (by decide)⟩⟩

/-! ## PlaywrightManager (playwright_manager.py) -/

/-- A Playwright page handle as `close_page` observes it: an id and its
`is_closed()` state. -/
structure PwPage where
  id : Nat
  is_closed : Bool
  deriving Repr, DecidableEq

/-- The shared `BrowserContext` as `close_page` observes it: the ids of its
currently open pages (the live `context.pages` list) and whether the
context has been closed. -/
structure BrowserContextState where
  pages : List Nat
  closed : Bool
  deriving Repr, DecidableEq

/-- The observable outcome of one `close_page` call: whether the handle is
closed afterwards, the resulting context state, what escaped to the caller,
and the error lines printed. -/
structure ClosePageOutcome where
  page_closed : Bool
  ctx : BrowserContextState
  raised : Option PyExc
  logged : List String
  deriving Repr

/-- The body of `close_page`'s `try`: `await page.close()` — when it fails
the error propagates with the page still open and the context untouched;
on success the live `context.pages` no longer contains the page, and when
no pages remain `await context.close()` runs (and may itself fail, after
the page close already succeeded). -/
def close_page_try (page_close_fails context_close_fails : Bool)
    (pg : PwPage) (ctx : BrowserContextState) :
    Except (PyExc × BrowserContextState × Bool) (BrowserContextState × Bool) :=
  if page_close_fails then
    Except.error (PyExc.otherError "page close failed", ctx, false)
  else
    let ctx' : BrowserContextState := { ctx with pages := ctx.pages.erase pg.id }
    if ctx'.pages.length == 0 then
      if context_close_fails then
        Except.error (PyExc.otherError "context close failed", ctx', true)
      else Except.ok ({ ctx' with closed := true }, true)
    else Except.ok (ctx', true)

/-- playwright_manager.py `PlaywrightManager.close_page`: a no-op when the
handle is already closed (`if page and not page.is_closed()`); otherwise
the try body runs, and any exception it raises is printed and swallowed —
nothing ever escapes to the caller. -/
def close_page (page_close_fails context_close_fails : Bool)
    (pg : PwPage) (ctx : BrowserContextState) : ClosePageOutcome :=
  if pg.is_closed then
    { page_closed := true, ctx := ctx, raised := none, logged := [] }
  else
    match close_page_try page_close_fails context_close_fails pg ctx with
    | Except.ok (ctx', pageClosed) =>
        { page_closed := pageClosed, ctx := ctx', raised := none, logged := [] }
    | Except.error (e, ctx', pageClosed) =>
        { page_closed := pageClosed, ctx := ctx', raised := none,
          logged := ["Error closing page/context: " ++ e.message] }

theorem erase_eq_nil_iff {l : List Nat} {a : Nat} (h : a ∈ l) :
    l.erase a = [] ↔ l = [a] := by
  constructor
  · intro he
    have hlen := List.length_erase_of_mem h
    rw [he] at hlen
    have hpos : 0 < l.length := List.length_pos.mpr (List.ne_nil_of_mem h)
    have hone : l.length = 1 := by
      simp only [List.length_nil] at hlen
      omega
    obtain ⟨b, rfl⟩ := List.length_eq_one.mp hone
    rw [List.mem_singleton] at h
    rw [h]
  · intro he
    subst he
    simp

/-- C7: `close_page` (i) never raises to its caller, whatever fails while
closing — the exception is swallowed and logged; and (ii) on the
no-failure path with a not-yet-closed handle that belongs to the context,
the handle ends up closed and the shared context is closed exactly when
the released page was the last open page under it (teardown is driven by
the open-page count reaching zero), so releasing a non-last page leaves
the context open. -/
theorem claim7_release_page (page_close_fails context_close_fails : Bool)
    (pg : PwPage) (ctx : BrowserContextState)
    (hmem : pg.id ∈ ctx.pages) (hopen : ctx.closed = false) :
    (close_page page_close_fails context_close_fails pg ctx).raised = none ∧
    (pg.is_closed = false →
      (close_page false false pg ctx).page_closed = true ∧
      ((close_page false false pg ctx).ctx.closed = true ↔ ctx.pages = [pg.id])) := by
  constructor
  · unfold close_page
    by_cases hcl : pg.is_closed = true
    · simp [hcl]
    · simp only [Bool.not_eq_true] at hcl
      simp only [hcl, Bool.false_eq_true, if_false]
      cases close_page_try page_close_fails context_close_fails pg ctx with
      | ok out => rfl
      | error out => rfl
  · intro hcl
    unfold close_page close_page_try
    simp only [hcl, Bool.false_eq_true, if_false]
    by_cases hempty : (ctx.pages.erase pg.id).length = 0
    · have hb : ((ctx.pages.erase pg.id).length == 0) = true := by simpa using hempty
      simp only [hb, if_true]
      constructor
      · trivial
      · constructor
        · intro _
          exact (erase_eq_nil_iff hmem).mp (List.length_eq_zero.mp hempty)
        · intro _
          trivial
    · have hb : ((ctx.pages.erase pg.id).length == 0) = false := by simpa using hempty
      simp only [hb, Bool.false_eq_true, if_false]
      refine ⟨trivial, ?_⟩
      rw [hopen]
      constructor
      · intro hfalse; exact absurd hfalse (by simp)
      · intro hlast
        exact absurd (List.length_eq_zero.mpr ((erase_eq_nil_iff hmem).mpr hlast))
          hempty

/-- C7 witness: releasing the only open page (id 7) closes it, closes the
context, and raises nothing. -/
theorem claim7_release_page_witness :
    ((7 : Nat) ∈ [7] ∧
     (BrowserContextState.mk [7] false).closed = false ∧
     (PwPage.mk 7 false).is_closed = false) ∧
    (close_page false false ⟨7, false⟩ ⟨[7], false⟩).raised = none ∧
    ((close_page false false ⟨7, false⟩ ⟨[7], false⟩).page_closed = true ∧
     ((close_page false false ⟨7, false⟩ ⟨[7], false⟩).ctx.closed = true ↔
       ([7] : List Nat) = [7])) :=
  ⟨by decide,
   (claim7_release_page false false ⟨7, false⟩ ⟨[7], false⟩ (by decide) rfl).1,
   (claim7_release_page false false ⟨7, false⟩ ⟨[7], false⟩ (by decide) rfl).2 rfl⟩

/-- The close/stop attempts `PlaywrightManager.close` performs, in order,
each recording whether it succeeded. -/
inductive PwCloseAction where
  | context_close (ok : Bool)
  | playwright_stop (ok : Bool)
  deriving Repr, DecidableEq

/-- playwright_manager.py: the manager's mutable handle state —
`context_open` models `self._context is not None` and
`playwright_started` models `self._playwright is not None`. -/
structure PlaywrightManagerState where
  context_open : Bool
  playwright_started : Bool
  deriving Repr, DecidableEq

/-- playwright_manager.py `PlaywrightManager.close`: when `self._context`
holds a context, attempt `context.close()` in its own try/except (a
failure is printed and swallowed) and then set `self._context = None`;
independently, when `self._playwright` is started, attempt
`playwright.stop()` in its own try/except and set `self._playwright =
None`.  Returns the new state and the attempts performed in order; the
failure flags change only each attempt's recorded outcome, never the
control flow (the state resets happen regardless). -/
def pm_close (context_close_fails stop_fails : Bool)
    (s : PlaywrightManagerState) : PlaywrightManagerState × List PwCloseAction :=
  let ctx_actions : List PwCloseAction :=
    if s.context_open then [PwCloseAction.context_close (!context_close_fails)]
    else []
  let s1 : PlaywrightManagerState := { s with context_open := false }
  let stop_actions : List PwCloseAction :=
    if s1.playwright_started then [PwCloseAction.playwright_stop (!stop_fails)]
    else []
  let s2 : PlaywrightManagerState := { s1 with playwright_started := false }
  (s2, ctx_actions ++ stop_actions)

/-- C8: `close()` (i) resets both handles to the uninitialized state
(`None`); (ii) is idempotent — a second call, with any failure behaviour,
performs no close or stop attempt and leaves the state unchanged; and
(iii) the two steps are independently guarded: when both handles are live,
the stop attempt is performed even when the context close fails (and vice
versa), for every combination of failures. -/
theorem claim8_close_idempotent (f1 f2 g1 g2 : Bool)
    (s : PlaywrightManagerState) :
    ((pm_close f1 f2 s).1.context_open = false ∧
     (pm_close f1 f2 s).1.playwright_started = false) ∧
    pm_close g1 g2 (pm_close f1 f2 s).1 = ((pm_close f1 f2 s).1, []) ∧
    (s.context_open = true → s.playwright_started = true →
      (pm_close f1 f2 s).2 =
        [PwCloseAction.context_close (!f1), PwCloseAction.playwright_stop (!f2)]) := by
  obtain ⟨c, p⟩ := s
  refine ⟨⟨rfl, rfl⟩, rfl, ?_⟩
  intro hc hp
  subst hc
  subst hp
  rfl

/-- C8 witness: both handles live, context close failing: the state resets,
a second close is a no-op, and the stop is still attempted. -/
theorem claim8_close_idempotent_witness :
    (((pm_close true false ⟨true, true⟩).1.context_open = false ∧
      (pm_close true false ⟨true, true⟩).1.playwright_started = false) ∧
     pm_close false false (pm_close true false ⟨true, true⟩).1 =
       ((pm_close true false ⟨true, true⟩).1, []) ∧
     ((PlaywrightManagerState.mk true true).context_open = true →
       (PlaywrightManagerState.mk true true).playwright_started = true →
       (pm_close true false ⟨true, true⟩).2 =
         [PwCloseAction.context_close false, PwCloseAction.playwright_stop true])) :=
  claim8_close_idempotent true false false false ⟨true, true⟩

/-! ## SearchTool orchestrator (search.py) -/

/-- search.py: the engine classes registrable in
`SearchTool._engines_registry`. -/
inductive EngineClass where
  | googleEngine
  | duckduckgoEngine
  | braveEngine
  deriving Repr, DecidableEq

/-- search.py `SearchTool.__init__`: the engine registry contents — every
member of the `SearchEngine` enum is mapped. -/
def engines_registry : SearchEngine → Option EngineClass
  | SearchEngine.google => some EngineClass.googleEngine
  | SearchEngine.duckduckgo => some EngineClass.duckduckgoEngine
  | SearchEngine.brave => some EngineClass.braveEngine

/-- With the registry the source constructs, the lookup in
`SearchTool.search` never fails (the unsupported-engine branch is dead
code for the shipped enum). -/
theorem engines_registry_total (se : SearchEngine) :
    (engines_registry se).isSome = true := by
  cases se <;> rfl

/-- What a `SearchTool.search` call produces: the returned value or raised
exception, plus whether the `async with self.playwright_manager` scope was
entered before that happened. -/
structure SearchToolOutcome where
  result : Except PyExc SearchResults
  session_opened : Bool
  deriving Repr

/-- search.py `SearchTool.search`, parameterized by the registry contents
(the dictionary is plain data fed to `.get`) and by the outcome of
`engine_instance.search(query)`: resolve the engine class — when the
lookup yields nothing, raise
`SearchEngineError("Search engine '...' is not supported.")` before the
`async with self.playwright_manager` block is entered; otherwise enter the
scope, run the engine, re-raise a `SearchEngineError` unchanged (after
printing it), and wrap any other exception as
`SearchEngineError(...) from e`. -/
def search_tool_search (registry : SearchEngine → Option EngineClass)
    (se : SearchEngine)
    (engine_outcome : Except PyExc SearchResults) : SearchToolOutcome :=
  match registry se with
  | none =>
      { result := Except.error (PyExc.searchEngineError
          ("Search engine '" ++ se.value ++ "' is not supported.") none),
        session_opened := false }
  | some _ =>
      match engine_outcome with
      | Except.ok r => { result := Except.ok r, session_opened := true }
      | Except.error e =>
          if e.is_search_engine_error then
            { result := Except.error e, session_opened := true }
          else
            { result := Except.error (PyExc.searchEngineError
                ("An unexpected error occurred in " ++ se.value ++ " engine: "
                  ++ e.message) (some e)),
              session_opened := true }

/-- C3 counterexample: with the `brave` entry removed from the registry,
the lookup fails and `SearchTool.search` raises `SearchEngineError` — not
the claimed `ConfigurationError` (though it does fail before the session
scope is entered). -/
theorem claim3_counterexample :
    (search_tool_search
        (fun se => if se = SearchEngine.brave then none else engines_registry se)
        SearchEngine.brave (Except.ok ⟨"q", "brave", []⟩)).result =
      Except.error (PyExc.searchEngineError
        "Search engine 'brave' is not supported." none) ∧
    (PyExc.searchEngineError
        "Search engine 'brave' is not supported." none).is_configuration_error
      = false ∧
    (search_tool_search
        (fun se => if se = SearchEngine.brave then none else engines_registry se)
        SearchEngine.brave (Except.ok ⟨"q", "brave", []⟩)).session_opened = false :=
  ⟨rfl, rfl, rfl⟩

/-- C3 amended: when the configured provider does not resolve in the
registry, `SearchTool.search` fails with `SearchEngineError` (not
`ConfigurationError`), and it does so before any session resource is
opened. -/
theorem claim3_amended_unregistered_engine
    (registry : SearchEngine → Option EngineClass) (se : SearchEngine)
    (engine_outcome : Except PyExc SearchResults)
    (h : registry se = none) :
    (search_tool_search registry se engine_outcome).result =
      Except.error (PyExc.searchEngineError
        ("Search engine '" ++ se.value ++ "' is not supported.") none) ∧
    (PyExc.searchEngineError
        ("Search engine '" ++ se.value ++ "' is not supported.")
        none).is_search_engine_error = true ∧
    (search_tool_search registry se engine_outcome).session_opened = false := by
  unfold search_tool_search
  rw [h]
  exact ⟨rfl, rfl, rfl⟩

/-- C3 amended, witness: the empty registry at `google`. -/
theorem claim3_amended_unregistered_engine_witness :
    ((fun _ : SearchEngine => (none : Option EngineClass)) SearchEngine.google
      = none) ∧
    (search_tool_search (fun _ => none) SearchEngine.google
        (Except.ok ⟨"q", "google", []⟩)).result =
      Except.error (PyExc.searchEngineError
        ("Search engine '" ++ SearchEngine.google.value ++ "' is not supported.")
        none) ∧
    (PyExc.searchEngineError
        ("Search engine '" ++ SearchEngine.google.value ++ "' is not supported.")
        none).is_search_engine_error = true ∧
    (search_tool_search (fun _ => none) SearchEngine.google
        (Except.ok ⟨"q", "google", []⟩)).session_opened = false :=
  ⟨rfl,
   claim3_amended_unregistered_engine (fun _ => none) SearchEngine.google
     (Except.ok ⟨"q", "google", []⟩) rfl⟩

/-- C9: at the orchestrator boundary, once the engine is resolved, (i) an
engine failure that is already a `SearchEngineError` is re-raised
unchanged; (ii) any other exception is wrapped into a `SearchEngineError`
whose `__cause__` is the original exception (`raise ... from e`); and
(iii) every error `SearchTool.search` can raise is a `SearchEngineError`,
so callers observe one closed error taxonomy. -/
theorem claim9_error_wrapping (registry : SearchEngine → Option EngineClass)
    (se : SearchEngine) (cls : EngineClass) (hreg : registry se = some cls) :
    (∀ (m : String) (cause : Option PyExc),
      (search_tool_search registry se
          (Except.error (PyExc.searchEngineError m cause))).result =
        Except.error (PyExc.searchEngineError m cause)) ∧
    (∀ e : PyExc, e.is_search_engine_error = false →
      (search_tool_search registry se (Except.error e)).result =
        Except.error (PyExc.searchEngineError
          ("An unexpected error occurred in " ++ se.value ++ " engine: "
            ++ e.message) (some e))) ∧
    (∀ (eo : Except PyExc SearchResults) (e' : PyExc),
      (search_tool_search registry se eo).result = Except.error e' →
      e'.is_search_engine_error = true) := by
  refine ⟨?_, ?_, ?_⟩
  · intro m cause
    unfold search_tool_search
    rw [hreg]
    rfl
  · intro e he
    unfold search_tool_search
    rw [hreg]
    cases e with
    | searchEngineError m c => exact absurd he (by simp [PyExc.is_search_engine_error])
    | playwrightError m => rfl
    | parsingError m => rfl
    | configurationError m => rfl
    | timeoutError m => rfl
    | unboundLocalError n => rfl
    | otherError m => rfl
  · intro eo e' h
    unfold search_tool_search at h
    rw [hreg] at h
    cases eo with
    | ok r => exact absurd h (by simp)
    | error e2 =>
        by_cases hs : e2.is_search_engine_error = true
        · simp only [hs, if_true] at h
          have he : e2 = e' := by
            have := h
            injection this
          rw [← he]
          exact hs
        · simp only [Bool.not_eq_true] at hs
          simp only [hs, Bool.false_eq_true, if_false] at h
          have he : PyExc.searchEngineError
              ("An unexpected error occurred in " ++ se.value ++ " engine: "
                ++ e2.message) (some e2) = e' := by
            injection h
          rw [← he]
          rfl

/-- C9 witness: with the shipped registry at `google`, a
`SearchEngineError` passes through unchanged, a Playwright `TimeoutError`
is wrapped with itself as cause, and the wrapped error is a
`SearchEngineError`. -/
theorem claim9_error_wrapping_witness :
    (engines_registry SearchEngine.google = some EngineClass.googleEngine) ∧
    (search_tool_search engines_registry SearchEngine.google
        (Except.error (PyExc.searchEngineError "boom" none))).result =
      Except.error (PyExc.searchEngineError "boom" none) ∧
    (search_tool_search engines_registry SearchEngine.google
        (Except.error (PyExc.timeoutError "Timeout 30000ms exceeded."))).result =
      Except.error (PyExc.searchEngineError
        ("An unexpected error occurred in " ++ SearchEngine.google.value
          ++ " engine: " ++ (PyExc.timeoutError "Timeout 30000ms exceeded.").message)
        (some (PyExc.timeoutError "Timeout 30000ms exceeded."))) ∧
    (PyExc.timeoutError "Timeout 30000ms exceeded.").is_search_engine_error
      = false :=
  ⟨rfl,
   (claim9_error_wrapping engines_registry SearchEngine.google
      EngineClass.googleEngine rfl).1 "boom" none,
   (claim9_error_wrapping engines_registry SearchEngine.google
      EngineClass.googleEngine rfl).2.1
     (PyExc.timeoutError "Timeout 30000ms exceeded.") rfl,
   rfl⟩

end SearchTool
